import Mathlib

/-!
Verification development for the wasmbind host-side binding layer
(src/wasmbind/low_level.py and src/wasmbind/module.py).

The guest WASM linear memory is modelled as a byte-addressed function
`Nat → Nat` (each cell a byte, written values reduced mod 256).  The guest
runtime exports (`__new` / `__alloc`, `__retain`) are external collaborators
of the repository; they are modelled from the spec's guest-runtime contract
(section 6): allocation returns a fresh 16-byte-aligned pointer whose 12-byte
header (refcount, type id, size) is initialised, retain bumps the refcount.
Python integer primitives (`&`, `>>`, `bin`, `min`) are modelled with their
documented CPython semantics.
-/

namespace Wasmbind

/-! ## Constants from src/wasmbind/low_level.py -/

def ID_OFFSET : Int := -8
def SIZE_OFFSET : Int := -4
def REFCOUNT_OFFSET : Int := -12

def STRING_ID : Nat := 1
def ARRAYBUFFER_ID : Nat := 0
def ARRAYBUFFERVIEW_ID : Nat := 2

def ARRAYBUFFERVIEW : Nat := 1 <<< 0
def ARRAY : Nat := 1 <<< 1
def STATICARRAY : Nat := 1 <<< 2
def SET : Nat := 1 <<< 3
def MAP : Nat := 1 <<< 4
def VAL_ALIGN_OFFSET : Nat := 6
def VAL_ALIGN : Nat := 1 <<< VAL_ALIGN_OFFSET
def VAL_SIGNED : Nat := 1 <<< 11
def VAL_FLOAT : Nat := 1 <<< 12
def VAL_NULLABLE : Nat := 1 <<< 13
def VAL_MANAGED : Nat := 1 <<< 14
def KEY_ALIGN_OFFSET : Nat := 15
def KEY_ALIGN : Nat := 1 <<< KEY_ALIGN_OFFSET
def KEY_SIGNED : Nat := 1 <<< 20
def KEY_FLOAT : Nat := 1 <<< 21
def KEY_NULLABLE : Nat := 1 <<< 22
def KEY_MANAGED : Nat := 1 <<< 23

def ARRAYBUFFERVIEW_BUFFER_OFFSET : Nat := 0
def ARRAYBUFFERVIEW_DATASTART_OFFSET : Nat := 4
def ARRAYBUFFERVIEW_DATALENGTH_OFFSET : Nat := 8
def ARRAYBUFFERVIEW_SIZE : Nat := 12
def ARRAY_LENGTH_OFFSET : Nat := 12
def ARRAY_SIZE : Nat := 16

/-! ## Python integer primitives used by the source -/

/-- Number of binary digits, by fuel-bounded structural recursion (so that the
kernel can evaluate it inside `decide`). -/
def bitLenAux : Nat → Nat → Nat
  | 0, _ => 0
  | fuel + 1, n => if n = 0 then 0 else bitLenAux fuel (n / 2) + 1

/-- CPython `int.bit_length`. -/
def pyBitLength (n : Nat) : Nat := bitLenAux n n

/-- Length of the string produced by CPython `bin(m)` (a leading `-` for
negative numbers, then `0b`, then the binary digits). -/
def pyBinLen (m : Int) : Nat :=
  if m < 0 then 3 + pyBitLength m.natAbs
  else if m = 0 then 3 else 2 + pyBitLength m.toNat

/-- CPython `~a` on unbounded integers. -/
def pyNot (a : Int) : Int := -a - 1

/-- CPython `a >> k` on unbounded integers (arithmetic shift = floor division). -/
def pyShr (a : Int) (k : Nat) : Int := Int.fdiv a ((2 : Int) ^ k)

/-- CPython `a & b` on unbounded integers (bitwise AND on the two's-complement
representations; a nonnegative result unless both operands are negative). -/
def pyAnd (a b : Int) : Int :=
  if 0 ≤ a then
    if 0 ≤ b then ((a.toNat &&& b.toNat : Nat) : Int)
    else ((a.toNat - (a.toNat &&& (-b - 1).toNat) : Nat) : Int)
  else
    if 0 ≤ b then ((b.toNat - (b.toNat &&& (-a - 1).toNat) : Nat) : Int)
    else -((((-a - 1).toNat ||| (-b - 1).toNat : Nat) : Int) + 1)

/-- src/wasmbind/module.py line 123, the code-golf lambda
`clz32 = lambda n: 35 - len(bin(-n)) & ~n >> 32` with CPython operator
precedence `(35 - len(bin(-n))) & ((~n) >> 32)`. -/
def clz32 (n : Int) : Int :=
  pyAnd (35 - (pyBinLen (-n) : Int)) (pyShr (pyNot n) 32)

/-- The mathematical 32-bit count-leading-zeros function (for inputs below
`2 ^ 32`), used to state what the spec means by `clz32`. -/
def clz32_math (n : Nat) : Int := 32 - (pyBitLength n : Int)

/-! ## RTTI types (src/wasmbind/module.py, RTTIType) -/

structure RTTIType where
  id : Nat
  base_id : Nat
  flags : Nat
deriving DecidableEq, Repr

def RTTIType.has (t : RTTIType) (flag : Nat) : Bool :=
  (t.flags &&& flag) != 0

def RTTIType.value_align (t : RTTIType) : Int :=
  31 - clz32 (((t.flags >>> VAL_ALIGN_OFFSET) &&& 31 : Nat) : Int)

/-! ## Error model

The source raises plain CPython exceptions; each constructor below is one of
the exception classes that occur in the two source files.  `errClass` is the
name of the exception class, the only "kind" a caller can dispatch on. -/

inductive PyErr where
  | valueError (msg : String)
  | typeError (msg : String)
  | indexError (idx : Int)
  | assertionError
  | attributeError (name : String)
deriving DecidableEq, Repr

def PyErr.errClass : PyErr → String
  | .valueError _ => "ValueError"
  | .typeError _ => "TypeError"
  | .indexError _ => "IndexError"
  | .assertionError => "AssertionError"
  | .attributeError _ => "AttributeError"

/-! ## Byte-addressed linear memory -/

def Mem : Type := Nat → Nat

def readByte (m : Mem) (a : Nat) : Nat := m a % 256

def writeByte (m : Mem) (a v : Nat) : Mem :=
  fun x => if x = a then v % 256 else m x

/-- Read `w` bytes little-endian starting at byte address `a`. -/
def readLE (m : Mem) (a : Nat) : Nat → Nat
  | 0 => 0
  | w + 1 => readByte m a + 256 * readLE m (a + 1) w

/-- Write the `w` low-order bytes of `v` little-endian at byte address `a`. -/
def writeLE (m : Mem) (a : Nat) : Nat → Nat → Mem
  | 0, _ => m
  | w + 1, v => writeLE (writeByte m a v) (a + 1) w (v / 256)

def readU32 (m : Mem) (a : Nat) : Nat := readLE m a 4

def writeU32 (m : Mem) (a v : Nat) : Mem := writeLE m a 4 v

def readByteList (m : Mem) (a : Nat) : Nat → List Nat
  | 0 => []
  | n + 1 => readByte m a :: readByteList m (a + 1) n

def writeByteList (m : Mem) (a : Nat) : List Nat → Mem
  | [] => m
  | b :: bs => writeByteList (writeByte m a b) (a + 1) bs

/-- A convenient way to build small concrete memories: write each `(addr, v)`
pair as a little-endian u32 into the all-zero memory. -/
def mkMem (l : List (Nat × Nat)) : Mem :=
  l.foldl (fun m p => writeU32 m p.1 p.2) (fun _ => 0)

/-- The word index `(p + off) // 4` computed by the source with Python integer
semantics, for a pointer `p` and a (possibly negative) header offset `off`;
the pointers that occur are all at least 12, keeping the index nonnegative. -/
def wordIdx (p : Nat) (off : Int) : Nat := ((p : Int) + off).toNat / 4

/-! ## Typed memory views (src/wasmbind/low_level.py, get_array_view_class)

The engine's view classes over linear memory: a view of element width `w`
bytes at element offset `o` maps index `i` to bytes
`[w * (o + i), w * (o + i) + w)`, little-endian, signed views using
two's complement.  Only the nonnegative indices used by the binding are
modelled. -/

inductive ViewKind where
  | u8 | i8 | u16 | i16 | u32 | i32
deriving DecidableEq, Repr

def ViewKind.width : ViewKind → Nat
  | .u8 | .i8 => 1
  | .u16 | .i16 => 2
  | .u32 | .i32 => 4

def ViewKind.signed : ViewKind → Bool
  | .i8 | .i16 | .i32 => true
  | .u8 | .u16 | .u32 => false

/-- `get_array_view_class` from src/wasmbind/low_level.py. -/
def get_array_view_class (is_float : Bool) (alignment : Int) (is_signed : Bool) :
    Except PyErr ViewKind :=
  if is_float then .error (.valueError ("float arrays are not yet supported."))
  else if alignment = 0 then .ok (if is_signed then .i8 else .u8)
  else if alignment = 1 then .ok (if is_signed then .i16 else .u16)
  else if alignment = 2 then .ok (if is_signed then .i32 else .u32)
  else if alignment = 3 then .error (.valueError ("64bit arrays are not yet supported."))
  else .error (.valueError ("Invalid align value."))

/-- Interpretation of a `w`-byte little-endian unsigned value as a signed
(two's complement) integer. -/
def toSigned (n w : Nat) : Int :=
  if n < 256 ^ w / 2 then (n : Int) else (n : Int) - ((256 ^ w : Nat) : Int)

/-- The `w`-byte two's-complement representation of `v` (what a typed view
stores on assignment). -/
def toBits (v : Int) (w : Nat) : Nat := (v % ((256 : Int) ^ w)).toNat

def elemRead (m : Mem) (k : ViewKind) (base i : Nat) : Int :=
  let raw := readLE m (k.width * (base + i)) k.width
  if k.signed then toSigned raw k.width else (raw : Int)

def elemWrite (m : Mem) (k : ViewKind) (base i : Nat) (v : Int) : Mem :=
  writeLE m (k.width * (base + i)) k.width (toBits v k.width)

/-- Bulk element write, modelling `array_buffer_view[:length] = values`. -/
def writeElems (k : ViewKind) (base : Nat) : Mem → Nat → List Int → Mem
  | m, _, [] => m
  | m, start, v :: vs => writeElems k base (elemWrite m k base start v) (start + 1) vs

/-- A scalar representable by a view of `wBytes`-byte elements with the given
signedness: the values an element of such an array can hold. -/
def scalarInRange (signed : Bool) (wBytes : Nat) (v : Int) : Prop :=
  if signed then
    -(((256 ^ wBytes / 2 : Nat)) : Int) ≤ v ∧ v < (((256 ^ wBytes / 2 : Nat)) : Int)
  else 0 ≤ v ∧ v < (((256 ^ wBytes : Nat)) : Int)

instance (sg : Bool) (w : Nat) (v : Int) : Decidable (scalarInRange sg w v) := by
  unfold scalarInRange; split <;> infer_instance

/-! ## Module state and the guest runtime contract

Modelled from the spec: the guest runtime exports of section 6, which are not
part of this repository.  `__new`/`__alloc` return a fresh pointer whose
12-byte header (refcount, type id, size) the guest runtime initialises; the
model allocates 16-byte-aligned pointers past everything allocated before.
`__retain` increments the refcount and returns the pointer.  `__rtti_base` is
the module global holding the RTTI table address (`none` when the module does
not export it). -/

structure State where
  mem : Mem
  heapNext : Nat
  rtti_base : Option Nat

/-- Guest `__new` / `__alloc`. -/
def guestAlloc (s : State) (size type_id : Nat) : Nat × State :=
  let P := (s.heapNext + 15) / 16 * 16 + 16
  let m := writeU32 (writeU32 (writeU32 s.mem (P - 12) 1) (P - 8) type_id) (P - 4) size
  (P, { s with mem := m, heapNext := P + size })

/-- Guest `__retain`. -/
def guestRetain (s : State) (P : Nat) : Nat × State :=
  (P, { s with mem := writeU32 s.mem (P - 12) (readU32 s.mem (P - 12) + 1) })

/-! ## UTF-16 (CPython codecs used by load_string / allocate_string)

A host string is modelled as its list of Unicode code points (CPython `str`
is a sequence of code points).  `utf16leEncode` is `str.encode("utf-16le")`;
`pyUtf16Decode` is `bytes.decode("utf-16")`, which sniffs a leading byte
order mark, strips it, and otherwise uses the platform byte order
(little-endian on all platforms CPython runs wasmer on). -/

/-- A code point CPython can encode to UTF-16: below 0x110000 and not a
surrogate. -/
def isScalarCP (c : Nat) : Prop := c < 1114112 ∧ (c < 55296 ∨ 57344 ≤ c)

instance (c : Nat) : Decidable (isScalarCP c) := by unfold isScalarCP; infer_instance

/-- UTF-16LE encoding of one code point (surrogate pair above 0xFFFF). -/
def encodeChar (c : Nat) : List Nat :=
  if c < 65536 then [c % 256, c / 256]
  else
    let v := c - 65536
    let hi := 55296 + v / 1024
    let lo := 56320 + v % 1024
    [hi % 256, hi / 256, lo % 256, lo / 256]

def utf16leEncode : List Nat → List Nat
  | [] => []
  | c :: cs => encodeChar c ++ utf16leEncode cs

/-- One 16-bit code unit from two bytes, big- or little-endian. -/
def unit2 (be : Bool) (b0 b1 : Nat) : Nat := if be then 256 * b0 + b1 else b0 + 256 * b1

/-- Decode UTF-16 code units to code points; `none` models a
UnicodeDecodeError (odd length, lone or unpaired surrogate). -/
def utf16Units (be : Bool) : List Nat → Option (List Nat)
  | [] => some []
  | [_] => none
  | b0 :: b1 :: rest =>
    let u := unit2 be b0 b1
    if u < 55296 ∨ 57344 ≤ u then
      match utf16Units be rest with
      | some cs => some (u :: cs)
      | none => none
    else if u < 56320 then
      match rest with
      | b2 :: b3 :: rest2 =>
        let l := unit2 be b2 b3
        if 56320 ≤ l ∧ l < 57344 then
          match utf16Units be rest2 with
          | some cs => some ((65536 + (u - 55296) * 1024 + (l - 56320)) :: cs)
          | none => none
        else none
      | _ => none
    else none

/-- CPython `bytes.decode("utf-16")`: a leading FF FE (FE FF) byte order mark
selects little- (big-) endian and is stripped; without a BOM the platform
(little-endian) order is used. -/
def pyUtf16Decode (bs : List Nat) : Option (List Nat) :=
  match bs with
  | 255 :: 254 :: rest => utf16Units false rest
  | 254 :: 255 :: rest => utf16Units true rest
  | _ => utf16Units false bs

/-! ## src/wasmbind/low_level.py -/

/-- `_load_type_bytes`: assert the header type id, then read `size` bytes. -/
def load_type_bytes (s : State) (pointer need_type : Nat) : Except PyErr (List Nat) :=
  let datatype := readU32 s.mem (4 * wordIdx pointer ID_OFFSET)
  if datatype = need_type then
    let bytes_length := readU32 s.mem (4 * wordIdx pointer SIZE_OFFSET)
    if bytes_length ≠ 0 then .ok (readByteList s.mem pointer bytes_length)
    else .ok []
  else .error .assertionError

/-- `load_string`: `_load_type_bytes(pointer, STRING_ID).decode("utf-16")`
(a UnicodeDecodeError is a ValueError subclass). -/
def load_string (s : State) (pointer : Nat) : Except PyErr (List Nat) :=
  match load_type_bytes s pointer STRING_ID with
  | .error e => .error e
  | .ok bs =>
    match pyUtf16Decode bs with
    | some cs => .ok cs
    | none => .error (.valueError ("utf-16 decode failed"))

/-- `_allocate_bytes`: `__new`, copy the payload, write the size field. -/
def allocate_bytes (s : State) (vbytes : List Nat) (type_id : Nat) : Nat × State :=
  let (pointer, s1) := guestAlloc s vbytes.length type_id
  let m2 := writeByteList s1.mem pointer vbytes
  let m3 := writeU32 m2 (4 * (pointer / 4 - 1)) vbytes.length
  (pointer, { s1 with mem := m3 })

/-- `allocate_string`: encode as UTF-16LE (no BOM) and allocate. -/
def allocate_string (s : State) (v : List Nat) : Nat × State :=
  allocate_bytes s (utf16leEncode v) STRING_ID

/-! ## src/wasmbind/module.py -/

/-- A Python index expression: an int or a slice. -/
inductive PyIdx where
  | int (i : Int)
  | slice (start stop step : Option Int)
deriving DecidableEq, Repr

/-- CPython `min(stop, length)` where `stop` may be `None`: comparing an int
with `None` raises a TypeError. -/
def pyMinOpt (stop : Option Int) (length : Nat) : Except PyErr Int :=
  match stop with
  | none => .error (.typeError ("not supported between instances of int and NoneType"))
  | some v => .ok (min v (length : Int))

/-- `validate_index` from src/wasmbind/module.py. -/
def validate_index (idx : PyIdx) (length : Nat) : Except PyErr PyIdx :=
  match idx with
  | .slice start stop step =>
    match pyMinOpt stop length with
    | .error e => .error e
    | .ok m => .ok (.slice start (some m) step)
  | .int i => if (length : Int) ≤ i then .error (.indexError i) else .ok (.int i)

/-- The host-side array wrapper `AssemblyScriptArray`: pointer, cached
length, the typed element view (`viewKind` over element offset `viewBase`),
and whether `_managed_class` was set. -/
structure ASArray where
  ptr : Nat
  _length : Nat
  viewKind : ViewKind
  viewBase : Nat
  managed : Bool
deriving DecidableEq, Repr

/-- What `self._buffer_view[idx]` yields: a scalar for an int index, or a
slice taken from the element view (recorded as the view plus the validated
slice handed to it). -/
inductive RawVal where
  | one (v : Int)
  | many (base : Nat) (kind : ViewKind) (start stop step : Option Int)
deriving DecidableEq, Repr

/-- Result of `AssemblyScriptArray.__getitem__`: the raw view value, either
returned directly or (for a managed element class) passed through
`module.resolve`. -/
inductive GetResult where
  | raw (r : RawVal)
  | resolved (r : RawVal)
deriving DecidableEq, Repr

/-- `AssemblyScriptArray.__getitem__`. -/
def ASArray.getitem (arr : ASArray) (s : State) (idx : PyIdx) : Except PyErr GetResult :=
  match validate_index idx arr._length with
  | .error e => .error e
  | .ok (.int i) =>
    let value := elemRead s.mem arr.viewKind arr.viewBase i.toNat
    if arr.managed then .ok (.resolved (.one value)) else .ok (.raw (.one value))
  | .ok (.slice start stop step) =>
    let value : RawVal := .many arr.viewBase arr.viewKind start stop step
    if arr.managed then .ok (.resolved value) else .ok (.raw value)

/-- `AssemblyScriptArray.__setitem__` for an integer index and a scalar
value.  The managed branch calls `self._module.resolve_pointer`, a method
that does not exist on `AssemblyScriptModule`, hence an AttributeError. -/
def ASArray.setitem (arr : ASArray) (s : State) (i : Int) (value : Int) :
    Except PyErr State :=
  match validate_index (.int i) arr._length with
  | .error e => .error e
  | .ok _ =>
    if arr.managed then .error (.attributeError ("resolve_pointer"))
    else .ok { s with mem := elemWrite s.mem arr.viewKind arr.viewBase i.toNat value }

/-- `AssemblyScriptModule.load_type`: read one RTTI entry.  A missing
`__rtti_base` global raises `ValueError("RTTI table not found.")`; the
failed `assert id < count` raises an AssertionError. -/
def load_type (s : State) (id : Nat) : Except PyErr RTTIType :=
  match s.rtti_base with
  | none => .error (.valueError ("RTTI table not found."))
  | some rb =>
    let count := readU32 s.mem (4 * (rb / 4))
    if id < count then
      let mem_index := 1 + id * 2
      .ok { id := id
            base_id := readU32 s.mem (4 * (rb / 4 + (mem_index + 1)))
            flags := readU32 s.mem (4 * (rb / 4 + mem_index)) }
    else .error .assertionError

/-- `AssemblyScriptModule.get_type_of`. -/
def get_type_of (s : State) (pointer : Nat) : Except PyErr RTTIType :=
  load_type s (readU32 s.mem (4 * wordIdx pointer ID_OFFSET))

/-- `AssemblyScriptModule.resolve_array`. -/
def resolve_array (s : State) (pointer : Nat) : Except PyErr (ASArray × State) :=
  match get_type_of s pointer with
  | .error e => .error e
  | .ok t =>
    if !(t.has ARRAYBUFFERVIEW || t.has ARRAY) then
      .error (.typeError ("The object is not an array."))
    else
      let buffer_pointer := readU32 s.mem (4 * ((pointer + ARRAYBUFFERVIEW_DATASTART_OFFSET) / 4))
      let length :=
        if t.has ARRAY then readU32 s.mem (4 * ((pointer + ARRAY_LENGTH_OFFSET) / 4))
        else readU32 s.mem (4 * wordIdx buffer_pointer SIZE_OFFSET)
      match get_array_view_class (t.has VAL_FLOAT) t.value_align (t.has VAL_SIGNED) with
      | .error e => .error e
      | .ok klass =>
        let viewBase := buffer_pointer >>> t.value_align.toNat
        let is_managed := t.has VAL_MANAGED
        let (_, s2) := guestRetain s pointer
        .ok ({ ptr := pointer, _length := length, viewKind := klass,
               viewBase := viewBase, managed := is_managed }, s2)

/-- CPython `length << align` where `align` is an int: negative shift counts
raise a ValueError. -/
def pyShlNat (n : Nat) (k : Int) : Except PyErr Nat :=
  if k < 0 then .error (.valueError ("negative shift count")) else .ok (n <<< k.toNat)

/-- `AssemblyScriptModule.alloc_array` for a list of scalar host values.
With `VAL_MANAGED` set the loop body requires each value to be a Python
string or an `AssemblyScriptObject`; a scalar fails the
`assert isinstance(value, AssemblyScriptObject)` (so only the empty list
succeeds there). -/
def alloc_array (s : State) (type_id : Nat) (values : List Int) :
    Except PyErr (ASArray × State) :=
  match load_type s type_id with
  | .error e => .error e
  | .ok t =>
    if !t.has (ARRAYBUFFERVIEW ||| ARRAY) then
      .error (.typeError ("is not an array type."))
    else
      let length := values.length
      let align := t.value_align
      match pyShlNat length align with
      | .error e => .error e
      | .ok byteLen =>
        let (array_buffer_pointer, s1) := guestAlloc s byteLen ARRAYBUFFER_ID
        let (array_pointer, s2) :=
          guestAlloc s1 (if t.has ARRAY then ARRAY_SIZE else ARRAYBUFFERVIEW_SIZE) type_id
        let (ret1, s3) := guestRetain s2 array_buffer_pointer
        let m0 := writeU32 s3.mem (4 * (array_pointer / 4 + ARRAYBUFFERVIEW_BUFFER_OFFSET / 4)) ret1
        let m1 := writeU32 m0 (4 * (array_pointer / 4 + ARRAYBUFFERVIEW_DATASTART_OFFSET / 4))
          array_buffer_pointer
        let m2 := writeU32 m1 (4 * (array_pointer / 4 + ARRAYBUFFERVIEW_DATALENGTH_OFFSET / 4))
          byteLen
        let m3 := if t.has ARRAY then
            writeU32 m2 (4 * (array_pointer / 4 + ARRAY_LENGTH_OFFSET / 4)) length
          else m2
        match get_array_view_class (t.has VAL_FLOAT) align (t.has VAL_SIGNED) with
        | .error e => .error e
        | .ok klass =>
          let viewBase := array_buffer_pointer >>> align.toNat
          if t.has VAL_MANAGED then
            match values with
            | [] =>
              let (_, s5) := guestRetain { s3 with mem := m3 } array_pointer
              .ok ({ ptr := array_pointer, _length := length, viewKind := klass,
                     viewBase := viewBase, managed := true }, s5)
            | _ :: _ => .error .assertionError
          else
            let m4 := writeElems klass viewBase m3 0 values
            let (_, s5) := guestRetain { s3 with mem := m4 } array_pointer
            .ok ({ ptr := array_pointer, _length := length, viewKind := klass,
                   viewBase := viewBase, managed := false }, s5)

/-! ## Handle equality (AssemblyScriptObject.__eq__ / AssemblyScriptArray.__eq__)

A handle is a plain object wrapper or an array wrapper.  `handleEq` follows
the CPython dispatch: `AssemblyScriptObject.__eq__` compares pointers
whenever the other operand is an `AssemblyScriptObject` (and returns False,
never NotImplemented, otherwise); `AssemblyScriptArray.__eq__` first tries
the pointer comparison and then, since an `AssemblyScriptArray` is a
`Sequence`, compares `list(self) == other`, which for two scalar arrays is
element-by-element equality of the values read from the two element views
(for managed arrays both sides resolve each slot to a wrapper that again
compares by pointer, so raw slot comparison coincides). -/

inductive Handle where
  | obj (ptr : Nat)
  | arr (a : ASArray)
deriving DecidableEq, Repr

def Handle.ptr : Handle → Nat
  | .obj p => p
  | .arr a => a.ptr

/-- `list(self)` for an array handle: the elements its view reads. -/
def arrContents (s : State) (a : ASArray) : List Int :=
  (List.range a._length).map fun i => elemRead s.mem a.viewKind a.viewBase i

def handleEq (s : State) : Handle → Handle → Bool
  | .obj i, .obj j => i == j
  | .obj i, .arr b => i == b.ptr
  | .arr a, .obj j => a.ptr == j
  | .arr a, .arr b => a.ptr == b.ptr || arrContents s a == arrContents s b

/-! ## Opaque value registry (AssemblyScriptModule.register_opaque_value)

In the source, `_opaque_values_weak`, `_opaque_values` and `_last_opaque_id`
are class attributes of `AssemblyScriptModule`.  `self._last_opaque_id += 1`
rebinds an *instance* attribute (initialised from the class value on first
use), but `self._opaque_values_weak[...] = value` mutates the *class-level*
dictionary, which is therefore shared by every module instance.
`OpaqueRegistry` is that shared class-level state; `ModuleInst` carries the
per-instance attribute dictionary. -/

/-- A host value: some payload plus CPython's `__weakrefoffset__` of its
type (0 for builtins such as int, which do not support weak references). -/
structure HostVal where
  val : Nat
  weakrefoffset : Nat
deriving DecidableEq, Repr

def assocSet (l : List (Nat × HostVal)) (k : Nat) (v : HostVal) : List (Nat × HostVal) :=
  match l with
  | [] => [(k, v)]
  | (k2, v2) :: rest => if k2 = k then (k, v) :: rest else (k2, v2) :: assocSet rest k v

def assocGet (l : List (Nat × HostVal)) (k : Nat) : Option HostVal :=
  match l with
  | [] => none
  | (k2, v2) :: rest => if k2 = k then some v2 else assocGet rest k

/-- The class-level (shared) registry state. -/
structure OpaqueRegistry where
  opaque_values_weak : List (Nat × HostVal)
  opaque_values : List (Nat × HostVal)
deriving DecidableEq, Repr

/-- The class attribute `_last_opaque_id`. -/
def class_last_opaque_id : Nat := 0

/-- The per-instance attribute dictionary of one `AssemblyScriptModule`. -/
structure ModuleInst where
  inst_last_opaque_id : Option Nat
deriving DecidableEq, Repr

/-- `register_opaque_value`: bump the (instance-level) counter, store the
value in the weak or strong class-level dictionary, return the token. -/
def register_opaque_value (cls : OpaqueRegistry) (m : ModuleInst) (value : HostVal) :
    Nat × OpaqueRegistry × ModuleInst :=
  let newId := (m.inst_last_opaque_id.getD class_last_opaque_id) + 1
  let m2 : ModuleInst := { inst_last_opaque_id := some newId }
  if value.weakrefoffset > 0 then
    (newId, { cls with opaque_values_weak := assocSet cls.opaque_values_weak newId value }, m2)
  else
    (newId, { cls with opaque_values := assocSet cls.opaque_values newId value }, m2)

/-- The lookup `resolve` performs for an opaque target: the weak dictionary
first, then the strong one. -/
def opaqueFind (cls : OpaqueRegistry) (token : Nat) : Option HostVal :=
  match assocGet cls.opaque_values_weak token with
  | some v => some v
  | none => assocGet cls.opaque_values token

/-! ## AssemblyScriptModule.resolve -/

/-- The `as_` target hint: `None`, `str`, `List`/`List[T]`, a wrapper class,
or an `OpaqueValue` subclass. -/
inductive Target where
  | noneT | strT | listT (managedElem : Bool) | classT | opaqueT
deriving DecidableEq, Repr

inductive ResolveRes where
  | arrRes (a : ASArray)
  | objRes (p : Nat)
  | strRes (cs : List Nat)
  | opaqueRes (v : HostVal)
deriving DecidableEq, Repr

/-- `AssemblyScriptModule.resolve` for a raw pointer argument.  The opaque
branch is checked first and never touches RTTI; every other target reads
`get_type_of(pointer)` before anything else. -/
def resolve (s : State) (cls : OpaqueRegistry) (pointer : Nat) (as_ : Target) :
    Except PyErr (ResolveRes × State) :=
  match as_ with
  | .opaqueT =>
    match opaqueFind cls pointer with
    | some v => .ok (.opaqueRes v, s)
    | none => .error (.valueError ("the value you registered no longer exists."))
  | _ =>
    match get_type_of s pointer with
    | .error e => .error e
    | .ok t =>
      let auto : Target :=
        if t.has ARRAYBUFFERVIEW then .listT false
        else if t.has ARRAY then .listT false
        else if t.id == STRING_ID then .strT
        else .noneT
      let as2 := match as_ with | .noneT => auto | x => x
      match as2 with
      | .listT _ =>
        match resolve_array s pointer with
        | .ok (a, s2) => .ok (.arrRes a, s2)
        | .error e => .error e
      | .classT =>
        let (p2, s2) := guestRetain s pointer
        .ok (.objRes p2, s2)
      | .strT =>
        match load_string s pointer with
        | .ok cs => .ok (.strRes cs, s)
        | .error e => .error e
      | _ => .error (.valueError ("Unsupported as target"))

/-! ## Projections used to state concrete evaluations

Results carry a `State`, and memories are functions, so whole-result
equality is not decidable; these projections extract the decidable parts. -/

def lengthOfArr : Except PyErr (ASArray × State) → Option Nat
  | .ok (a, _) => some a._length
  | .error _ => none

def arrOf : Except PyErr (ASArray × State) → Option ASArray
  | .ok (a, _) => some a
  | .error _ => none

def errOf : Except PyErr (ASArray × State) → Option PyErr
  | .ok _ => none
  | .error e => some e

/-! ## Concrete states used by counterexamples and witnesses -/

/-- A fresh module state: all-zero memory, no `__rtti_base` export. -/
def emptyState : State := { mem := fun _ => 0, heapNext := 0, rtti_base := none }

/-- RTTI base 100 with 4 entries; type id 3 has flags 129 =
`ARRAYBUFFERVIEW ||| (2 <<< VAL_ALIGN_OFFSET)` (a u16 typed-array view, no
ARRAY flag).  The object at pointer 160 has type id 3 (header word at 152)
and data start 200 (word at 164); the backing buffer's size field (word at
196) holds 8 bytes, i.e. 4 u16 elements. -/
def sC2 : State :=
  { mem := mkMem [(100, 4), (128, 129), (152, 3), (164, 200), (196, 8)]
    heapNext := 0, rtti_base := some 100 }

/-- RTTI base 32 with 4 entries; type id 3 has flags 66 =
`ARRAY ||| (1 <<< VAL_ALIGN_OFFSET)` (a general array of unsigned bytes). -/
def sC4 : State :=
  { mem := mkMem [(32, 4), (60, 66)], heapNext := 64, rtti_base := some 32 }

/-- A scalar u8 array handle of length 2 used by witnesses. -/
def c5arr : ASArray := { ptr := 16, _length := 2, viewKind := .u8, viewBase := 16, managed := false }

/-- Memory holding the byte sequence 5, 7 both at address 64 and at
address 96. -/
def c7s : State :=
  { mem := mkMem [(64, 5 + 256 * 7), (96, 5 + 256 * 7)], heapNext := 0, rtti_base := none }

/-- A u8 array handle at pointer 100 viewing bytes 64..66. -/
def c7a : ASArray := { ptr := 100, _length := 2, viewKind := .u8, viewBase := 64, managed := false }

/-- A u8 array handle at pointer 200 viewing bytes 96..98. -/
def c7b : ASArray := { ptr := 200, _length := 2, viewKind := .u8, viewBase := 96, managed := false }

/-- The one-character host string consisting of U+FEFF (the byte order
mark code point). -/
def bomString : List Nat := [65279]

/-! # Theorems -/

/-! ## Little-endian read/write lemmas -/

theorem writeByte_eq_of_ne (m : Mem) (a v x : Nat) (h : x ≠ a) : writeByte m a v x = m x := by
  simp [writeByte, h]

theorem writeLE_eq_outside (w : Nat) :
    ∀ (m : Mem) (a v x : Nat), (x < a ∨ a + w ≤ x) → writeLE m a w v x = m x := by
  induction w with
  | zero => intro m a v x _; rfl
  | succ w ih =>
    intro m a v x h
    show writeLE (writeByte m a v) (a + 1) w (v / 256) x = m x
    rw [ih _ _ _ _ (by omega)]
    exact writeByte_eq_of_ne _ _ _ _ (by omega)

theorem readLE_congr (w : Nat) :
    ∀ (m1 m2 : Mem) (a : Nat), (∀ x, a ≤ x → x < a + w → m1 x = m2 x) →
      readLE m1 a w = readLE m2 a w := by
  induction w with
  | zero => intro _ _ _ _; rfl
  | succ w ih =>
    intro m1 m2 a h
    show readByte m1 a + 256 * readLE m1 (a + 1) w =
      readByte m2 a + 256 * readLE m2 (a + 1) w
    rw [ih m1 m2 (a + 1) (fun x hx1 hx2 => h x (by omega) (by omega))]
    unfold readByte
    rw [h a (Nat.le_refl a) (by omega)]

theorem readLE_writeLE (w : Nat) :
    ∀ (m : Mem) (a v : Nat), readLE (writeLE m a w v) a w = v % 256 ^ w := by
  induction w with
  | zero => intro m a v; simp [readLE, writeLE, Nat.mod_one]
  | succ w ih =>
    intro m a v
    show readByte (writeLE (writeByte m a v) (a + 1) w (v / 256)) a +
        256 * readLE (writeLE (writeByte m a v) (a + 1) w (v / 256)) (a + 1) w =
      v % 256 ^ (w + 1)
    rw [ih]
    have h1 : readByte (writeLE (writeByte m a v) (a + 1) w (v / 256)) a = v % 256 := by
      unfold readByte
      rw [writeLE_eq_outside w _ _ _ _ (Or.inl (by omega))]
      simp [writeByte, Nat.mod_mod_of_dvd]
    rw [h1, pow_succ, mul_comm (256 ^ w) 256, Nat.mod_mul]

/-! ## Element view lemmas -/

theorem width_pos (k : ViewKind) : 0 < k.width := by cases k <;> decide

theorem elemRead_congr (m1 m2 : Mem) (k : ViewKind) (base i : Nat)
    (h : ∀ x, k.width * (base + i) ≤ x → x < k.width * (base + i) + k.width → m1 x = m2 x) :
    elemRead m1 k base i = elemRead m2 k base i := by
  unfold elemRead
  rw [readLE_congr _ _ _ _ h]

theorem elemRead_elemWrite (m : Mem) (k : ViewKind) (base i : Nat) (v : Int)
    (h : scalarInRange k.signed k.width v) :
    elemRead (elemWrite m k base i v) k base i = v := by
  cases k <;>
    · simp only [elemRead, elemWrite, ViewKind.width, ViewKind.signed, scalarInRange,
        if_true, if_false] at h ⊢
      rw [readLE_writeLE]
      simp only [toBits, toSigned]
      norm_num at h ⊢
      omega

theorem writeElems_frame_lt (k : ViewKind) (base : Nat) :
    ∀ (vs : List Int) (m : Mem) (start x : Nat), x < k.width * (base + start) →
      writeElems k base m start vs x = m x := by
  intro vs
  induction vs with
  | nil => intro _ _ _ _; rfl
  | cons v vs ih =>
    intro m start x hx
    show writeElems k base (elemWrite m k base start v) (start + 1) vs x = m x
    rw [ih _ _ _ (Nat.lt_of_lt_of_le hx (Nat.mul_le_mul_left _ (by omega)))]
    unfold elemWrite
    exact writeLE_eq_outside _ _ _ _ _ (Or.inl hx)

theorem elemRead_writeElems (k : ViewKind) (base : Nat) :
    ∀ (vs : List Int) (m : Mem) (start j : Nat) (hj : j < vs.length),
      (∀ v ∈ vs, scalarInRange k.signed k.width v) →
      elemRead (writeElems k base m start vs) k base (start + j) = vs.get ⟨j, hj⟩ := by
  intro vs
  induction vs with
  | nil => intro m start j hj; simp at hj
  | cons v vs ih =>
    intro m start j hj hr
    cases j with
    | zero =>
      show elemRead (writeElems k base (elemWrite m k base start v) (start + 1) vs)
        k base (start + 0) = v
      have heq : elemRead (writeElems k base (elemWrite m k base start v) (start + 1) vs)
          k base (start + 0) = elemRead (elemWrite m k base start v) k base start := by
        simp only [Nat.add_zero]
        apply elemRead_congr
        intro x hx1 hx2
        apply writeElems_frame_lt
        calc x < k.width * (base + start) + k.width := hx2
          _ = k.width * (base + (start + 1)) := by ring
      rw [heq, elemRead_elemWrite _ _ _ _ _ (hr v (List.mem_cons_self v vs))]
    | succ j =>
      show elemRead (writeElems k base (elemWrite m k base start v) (start + 1) vs)
        k base (start + (j + 1)) = _
      have harr : start + (j + 1) = (start + 1) + j := by ring
      rw [harr]
      rw [ih _ _ j (by simpa using hj) (fun u hu => hr u (List.mem_cons_of_mem _ hu))]
      simp [List.get]

/-! ## The view factory on supported alignments -/

theorem view_class_spec (a : Nat) (ha : a < 3) (sg : Bool) :
    ∃ k : ViewKind, get_array_view_class false (a : Int) sg = .ok k ∧
      k.width = 2 ^ a ∧ k.signed = sg := by
  interval_cases a <;> cases sg <;> exact ⟨_, rfl, rfl, rfl⟩

/-! ## value_align arithmetic -/

theorem value_align_formula (t : RTTIType) :
    t.value_align = (pyBitLength ((t.flags >>> VAL_ALIGN_OFFSET) &&& 31) : Int) - 1 := by
  have hf : (t.flags >>> VAL_ALIGN_OFFSET) &&& 31 < 32 :=
    Nat.lt_succ_of_le Nat.and_le_right
  have key : ∀ f : Nat, f < 32 → (31 : Int) - clz32 (f : Int) = (pyBitLength f : Int) - 1 := by
    decide
  exact key _ hf

/-- Reading element `i` back after the bulk element write, through the final
refcount write the array-handle creation performs at some higher address
`c`: the inner memory `mbase` (headers already written) is irrelevant to the
element region. -/
theorem elemRead_final (mbase : Mem) (k : ViewKind) (buf : Nat) (xs : List Int)
    (c cv a : Nat) (i : Nat) (hi : i < xs.length)
    (hdvd : 2 ^ a ∣ buf) (hw : k.width = 2 ^ a)
    (hr : ∀ v ∈ xs, scalarInRange k.signed k.width v)
    (hc : buf + k.width * xs.length ≤ c) :
    elemRead (writeU32 (writeElems k (buf >>> a) mbase 0 xs) c cv) k (buf >>> a) i =
      xs.get ⟨i, hi⟩ := by
  have hb : k.width * ((buf >>> a) + i) = buf + k.width * i := by
    rw [Nat.shiftRight_eq_div_pow]
    have h0 : k.width * (buf / 2 ^ a) = buf := by
      rw [hw]; exact Nat.mul_div_cancel' hdvd
    rw [Nat.mul_add, h0]
  have hlt : buf + k.width * i + k.width ≤ buf + k.width * xs.length := by
    have h1 : k.width * i + k.width = k.width * (i + 1) := by ring
    have h2 : k.width * (i + 1) ≤ k.width * xs.length := Nat.mul_le_mul_left _ (by omega)
    omega
  have step1 : elemRead (writeU32 (writeElems k (buf >>> a) mbase 0 xs) c cv) k (buf >>> a) i
      = elemRead (writeElems k (buf >>> a) mbase 0 xs) k (buf >>> a) i := by
    apply elemRead_congr
    intro x hx1 hx2
    apply writeLE_eq_outside
    left
    rw [hb] at hx2
    omega
  rw [step1]
  have h3 := elemRead_writeElems k (buf >>> a) xs mbase 0 i hi hr
  simpa using h3

/-! ## C1 — flag schema -/

/-- C1 (counterexample): the claim that the binding's RTTI flag constants
follow the canonical schema (ARRAYBUFFERVIEW bit 0, ARRAY bit 1, SET bit 2,
MAP bit 3, VAL_ALIGN at bit 5, VAL_SIGNED 10, VAL_FLOAT 11, VAL_NULLABLE 12,
VAL_MANAGED 13, KEY_ALIGN at 14) is false: already SET is 8, not 4. -/
theorem C1_counterexample :
    ¬ (ARRAYBUFFERVIEW = 1 <<< 0 ∧ ARRAY = 1 <<< 1 ∧ SET = 1 <<< 2 ∧ MAP = 1 <<< 3 ∧
       VAL_ALIGN_OFFSET = 5 ∧ VAL_SIGNED = 1 <<< 10 ∧ VAL_FLOAT = 1 <<< 11 ∧
       VAL_NULLABLE = 1 <<< 12 ∧ VAL_MANAGED = 1 <<< 13 ∧ KEY_ALIGN_OFFSET = 14) := by
  decide

/-- C1 (amended): the binding hard-codes the shifted flag schema (the spec's
"second layout"): ARRAYBUFFERVIEW bit 0, ARRAY bit 1, STATICARRAY bit 2,
SET bit 3, MAP bit 4, VAL_ALIGN starting at bit 6, VAL_SIGNED 11,
VAL_FLOAT 12, VAL_NULLABLE 13, VAL_MANAGED 14 and KEY_ALIGN starting at
bit 15. -/
theorem C1_shifted_schema :
    ARRAYBUFFERVIEW = 1 ∧ ARRAY = 2 ∧ STATICARRAY = 4 ∧ SET = 8 ∧ MAP = 16 ∧
    VAL_ALIGN_OFFSET = 6 ∧ VAL_SIGNED = 2 ^ 11 ∧ VAL_FLOAT = 2 ^ 12 ∧
    VAL_NULLABLE = 2 ^ 13 ∧ VAL_MANAGED = 2 ^ 14 ∧ KEY_ALIGN_OFFSET = 15 := by
  decide

/-! ## C5 — out-of-bounds indexing -/

/-- C5: for any array handle and any integer index at or past the length,
both the element read and the element write fail with the IndexError
(OutOfBounds) kind; no value is produced and no memory is written. -/
theorem C5_out_of_bounds (arr : ASArray) (s : State) (i v : Int)
    (h : (arr._length : Int) ≤ i) :
    arr.getitem s (.int i) = .error (.indexError i) ∧
    arr.setitem s i v = .error (.indexError i) := by
  constructor <;> simp [ASArray.getitem, ASArray.setitem, validate_index, if_pos h]

/-- C5 witness at a concrete handle of length 2 and index 5. -/
theorem C5_witness :
    ((c5arr._length : Int) ≤ 5) ∧
    (c5arr.getitem emptyState (.int 5) = .error (.indexError 5) ∧
     c5arr.setitem emptyState 5 7 = .error (.indexError 5)) :=
  ⟨by decide, C5_out_of_bounds c5arr emptyState 5 7 (by decide)⟩

/-! ## C6 — value_align formula -/

/-- C6: for every RTTI entry, `value_align` equals
`31 - clz32((flags >> VAL_ALIGN_OFFSET) & 31)` with `clz32` the mathematical
32-bit count-leading-zeros, and it is -1 exactly when no alignment bits are
set in that 5-bit field. -/
theorem C6_value_align (id0 b0 flags : Nat) :
    (RTTIType.mk id0 b0 flags).value_align =
      31 - clz32_math ((flags >>> VAL_ALIGN_OFFSET) &&& 31) ∧
    ((RTTIType.mk id0 b0 flags).value_align = -1 ↔
      (flags >>> VAL_ALIGN_OFFSET) &&& 31 = 0) := by
  have hf : (flags >>> VAL_ALIGN_OFFSET) &&& 31 < 32 :=
    Nat.lt_succ_of_le Nat.and_le_right
  have key : ∀ f : Nat, f < 32 →
      ((31 : Int) - clz32 (f : Int) = 31 - clz32_math f ∧
       ((31 : Int) - clz32 (f : Int) = -1 ↔ f = 0)) := by decide
  exact key _ hf

/-! ## C7 — handle equality -/

/-- C7 (counterexample): two scalar array handles holding different guest
pointers (100 and 200) but equal element contents compare equal, so handle
equality is not "same pointer". -/
theorem C7_counterexample :
    handleEq c7s (.arr c7a) (.arr c7b) = true ∧ c7a.ptr ≠ c7b.ptr := by
  exact ⟨by decide, by decide⟩

/-- C7 (amended): plain object handles compare equal exactly when they hold
the same pointer; an array handle additionally compares equal to another
array handle whose element contents coincide. -/
theorem C7_handle_eq (s : State) (h1 h2 : Handle) :
    handleEq s h1 h2 = true ↔
      (h1.ptr = h2.ptr ∨ match h1, h2 with
        | .arr a, .arr b => arrContents s a = arrContents s b
        | _, _ => False) := by
  cases h1 <;> cases h2 <;> simp [handleEq, Handle.ptr]

/-! ## C8 — opaque registry sharing -/

/-- C8: evaluating `register_opaque_value` at the failing input.  Module A
(a fresh instance) registers the value 10 and receives token 1; module B
(another fresh instance, sharing the class-level dictionaries) also receives
token 1 for the value 20, and after B's registration token 1 resolves to 20
in the shared registry A reads from — B's registration changed what A's
token resolves to. -/
theorem C8_shared_registry :
    (register_opaque_value ⟨[], []⟩ ⟨none⟩ ⟨10, 0⟩).1 = 1 ∧
    opaqueFind (register_opaque_value ⟨[], []⟩ ⟨none⟩ ⟨10, 0⟩).2.1 1 =
      some ⟨10, 0⟩ ∧
    (register_opaque_value (register_opaque_value ⟨[], []⟩ ⟨none⟩ ⟨10, 0⟩).2.1
        ⟨none⟩ ⟨20, 0⟩).1 = 1 ∧
    opaqueFind (register_opaque_value (register_opaque_value ⟨[], []⟩ ⟨none⟩ ⟨10, 0⟩).2.1
        ⟨none⟩ ⟨20, 0⟩).2.1 1 = some ⟨20, 0⟩ := by
  exact ⟨rfl, rfl, rfl, rfl⟩

/-! ## C9 — missing __rtti_base -/

/-- C9 (counterexample): with `__rtti_base` absent, `load_type` raises a
plain `ValueError("RTTI table not found.")` — the same exception class
(ValueError) as the entirely unrelated unsupported-layout failure of the
view factory — not a dedicated RTTIUnavailable kind. -/
theorem C9_counterexample :
    load_type emptyState 0 = .error (.valueError ("RTTI table not found.")) ∧
    get_array_view_class true 0 false =
      .error (.valueError ("float arrays are not yet supported.")) ∧
    PyErr.errClass (.valueError ("RTTI table not found.")) =
      PyErr.errClass (.valueError ("float arrays are not yet supported.")) := by
  exact ⟨rfl, rfl, rfl⟩

/-- C9 (amended): if `__rtti_base` is missing, `load_type` and every
operation that reaches it (`get_type_of`, `resolve` with any non-opaque
target, `resolve_array`, `alloc_array`) fail with the generic
`ValueError("RTTI table not found.")`. -/
theorem C9_rtti_unavailable (s : State) (hnone : s.rtti_base = none)
    (id P tid : Nat) (xs : List Int) (cls : OpaqueRegistry) (tgt : Target)
    (htgt : tgt ≠ .opaqueT) :
    load_type s id = .error (.valueError ("RTTI table not found.")) ∧
    get_type_of s P = .error (.valueError ("RTTI table not found.")) ∧
    resolve s cls P tgt = .error (.valueError ("RTTI table not found.")) ∧
    resolve_array s P = .error (.valueError ("RTTI table not found.")) ∧
    alloc_array s tid xs = .error (.valueError ("RTTI table not found.")) := by
  have hl : ∀ j, load_type s j = .error (.valueError ("RTTI table not found.")) := by
    intro j; simp [load_type, hnone]
  refine ⟨hl id, hl _, ?_, ?_, ?_⟩
  · cases tgt <;> simp [resolve, get_type_of, hl] at htgt ⊢
  · simp [resolve_array, get_type_of, hl]
  · simp [alloc_array, hl]

/-- C9 witness at the fresh module state. -/
theorem C9_witness :
    load_type emptyState 5 = .error (.valueError ("RTTI table not found.")) ∧
    get_type_of emptyState 16 = .error (.valueError ("RTTI table not found.")) ∧
    resolve emptyState ⟨[], []⟩ 16 .noneT =
      .error (.valueError ("RTTI table not found.")) ∧
    resolve_array emptyState 16 = .error (.valueError ("RTTI table not found.")) ∧
    alloc_array emptyState 0 [] = .error (.valueError ("RTTI table not found.")) :=
  C9_rtti_unavailable emptyState rfl 5 16 0 [] ⟨[], []⟩ .noneT (by decide)

/-! ## C10 — slice validation -/

/-- C10: slice validation is only defined for slices with an integer upper
bound.  A slice whose stop is omitted makes `min(stop, length)` raise a
TypeError (so `arr[1:]` fails instead of being clamped), while a slice with
integer stop is clamped to `min(stop, length)` and forwarded to the element
view. -/
theorem C10_slice_validation (arr : ASArray) (s : State) (start step : Option Int)
    (k : Int) (hm : arr.managed = false) :
    arr.getitem s (.slice start none step) =
      .error (.typeError ("not supported between instances of int and NoneType")) ∧
    arr.getitem s (.slice start (some k) step) =
      .ok (.raw (.many arr.viewBase arr.viewKind start
        (some (min k (arr._length : Int))) step)) := by
  constructor <;> simp [ASArray.getitem, validate_index, pyMinOpt, hm]

/-- C10 witness: `c5arr[1:]` raises, `c5arr[1:5]` is clamped to stop 2. -/
theorem C10_witness :
    (c5arr.managed = false) ∧
    (c5arr.getitem emptyState (.slice (some 1) none none) =
      .error (.typeError ("not supported between instances of int and NoneType")) ∧
     c5arr.getitem emptyState (.slice (some 1) (some 5) none) =
      .ok (.raw (.many c5arr.viewBase c5arr.viewKind (some 1)
        (some (min 5 (c5arr._length : Int))) none))) :=
  ⟨by decide, C10_slice_validation c5arr emptyState (some 1) none 5 (by decide)⟩

/-! ## C2 — resolve_array length rule -/

/-- C2 (counterexample): in `sC2` the object at 160 has a type with only the
ARRAYBUFFERVIEW flag and value_align 1 (u16 elements), and its buffer's
size field holds 8 bytes.  `resolve_array` takes the length 8 — the raw
byte size — whereas the claim demands the element count
`8 >> value_align = 4`. -/
theorem C2_counterexample :
    (get_type_of sC2 160).map (fun t => (t.has ARRAYBUFFERVIEW, t.has ARRAY)) =
      .ok (true, false) ∧
    (get_type_of sC2 160).map (fun t => t.value_align) = .ok 1 ∧
    lengthOfArr (resolve_array sC2 160) = some 8 ∧
    readU32 sC2.mem (readU32 sC2.mem 164 - 4) >>> 1 = 4 ∧ (8 : Nat) ≠ 4 := by
  exact ⟨rfl, rfl, rfl, rfl, by decide⟩

/-- C2 (amended): for an ARRAY-flagged type `resolve_array` reads the
logical length from the u32 at `P + 12`; for a type with only the
ARRAYBUFFERVIEW flag it takes the length from the buffer's size field (the
u32 at `buffer_pointer - 4`) directly — the byte size, with no shift by the
type's value_align. -/
theorem C2_length_rule (s : State) (P : Nat) (t : RTTIType) (k : ViewKind)
    (ht : get_type_of s P = .ok t)
    (hflag : (t.has ARRAYBUFFERVIEW || t.has ARRAY) = true)
    (hk : get_array_view_class (t.has VAL_FLOAT) t.value_align (t.has VAL_SIGNED) = .ok k)
    (hP4 : P % 4 = 0)
    (hb4 : readU32 s.mem (P + 4) % 4 = 0)
    (hbge : 4 ≤ readU32 s.mem (P + 4)) :
    ∃ a s2, resolve_array s P = .ok (a, s2) ∧
      a._length = (if t.has ARRAY then readU32 s.mem (P + 12)
                   else readU32 s.mem (readU32 s.mem (P + 4) - 4)) := by
  have e1 : 4 * ((P + ARRAYBUFFERVIEW_DATASTART_OFFSET) / 4) = P + 4 := by
    unfold ARRAYBUFFERVIEW_DATASTART_OFFSET; omega
  have e2 : 4 * ((P + ARRAY_LENGTH_OFFSET) / 4) = P + 12 := by
    unfold ARRAY_LENGTH_OFFSET; omega
  have e3 : 4 * wordIdx (readU32 s.mem (P + 4)) SIZE_OFFSET =
      readU32 s.mem (P + 4) - 4 := by
    unfold wordIdx SIZE_OFFSET; omega
  unfold resolve_array
  rw [ht]
  simp only [hflag, Bool.not_true, Bool.false_eq_true, if_false, e1, e2, e3, hk]
  exact ⟨_, _, rfl, rfl⟩

/-- C2 witness: the amended rule applied at the concrete state `sC2`. -/
theorem C2_witness :
    ∃ a s2, resolve_array sC2 160 = .ok (a, s2) ∧
      a._length = (if (RTTIType.mk 3 0 129).has ARRAY then readU32 sC2.mem 172
                   else readU32 sC2.mem (readU32 sC2.mem 164 - 4)) :=
  C2_length_rule sC2 160 (RTTIType.mk 3 0 129) .u16 rfl rfl rfl (by decide)
    (by decide) (by decide)

/-! ## C3 — string round trip -/

/-- C3: evaluating the code at the failing input.  The host string
consisting of the single code point U+FEFF is a valid encodable string, but
`load_string(allocate_string(s))` returns the empty string: the UTF-16LE
encoding FF FE is eaten as a byte order mark by the `utf-16` codec that
`load_string` decodes with, so the round trip the claim states fails. -/
theorem C3_bom_lost :
    isScalarCP 65279 ∧
    load_string (allocate_string emptyState bomString).2
      (allocate_string emptyState bomString).1 = .ok ([] : List Nat) ∧
    bomString ≠ ([] : List Nat) := by
  exact ⟨by decide, rfl, by decide⟩

/-! ## C4 — alloc_array round trip -/

/-- C4: for any RTTI entry carrying an array flag whose layout is supported
(not float, alignment field giving value_align 0, 1 or 2) and not managed,
and any sequence of in-range scalars `xs`, `alloc_array` succeeds, the
returned handle's length equals `xs.length`, and reading the handle back
element by element yields exactly `xs`, in order. -/
theorem C4_roundtrip (s : State) (rb type_id flags : Nat) (xs : List Int)
    (hbase : s.rtti_base = some rb)
    (hid : type_id < readU32 s.mem (4 * (rb / 4)))
    (hflags : readU32 s.mem (4 * (rb / 4 + (1 + type_id * 2))) = flags)
    (harr : flags &&& (ARRAYBUFFERVIEW ||| ARRAY) ≠ 0)
    (hfloat : flags &&& VAL_FLOAT = 0)
    (hman : flags &&& VAL_MANAGED = 0)
    (halign : (flags >>> VAL_ALIGN_OFFSET) &&& 31 = 1 ∨
      (flags >>> VAL_ALIGN_OFFSET) &&& 31 = 2 ∨ (flags >>> VAL_ALIGN_OFFSET) &&& 31 = 4)
    (hrange : ∀ v ∈ xs, scalarInRange ((flags &&& VAL_SIGNED) != 0)
      ((flags >>> VAL_ALIGN_OFFSET) &&& 31) v) :
    ∃ arr s2, alloc_array s type_id xs = .ok (arr, s2) ∧
      arr._length = xs.length ∧
      ∀ i (hi : i < xs.length),
        arr.getitem s2 (.int (i : Int)) = .ok (.raw (.one (xs.get ⟨i, hi⟩))) := by
  obtain ⟨t, hload, htf⟩ :
      ∃ t : RTTIType, load_type s type_id = .ok t ∧ t.flags = flags := by
    refine ⟨⟨type_id, readU32 s.mem (4 * (rb / 4 + (1 + type_id * 2 + 1))), flags⟩, ?_, rfl⟩
    simp [load_type, hbase, hid, hflags]
  have hABV : t.has (ARRAYBUFFERVIEW ||| ARRAY) = true := by
    simp only [RTTIType.has, htf, bne_iff_ne, ne_eq]
    exact harr
  have hFloat : t.has VAL_FLOAT = false := by
    simp [RTTIType.has, htf, hfloat]
  have hMan : t.has VAL_MANAGED = false := by
    simp [RTTIType.has, htf, hman]
  have hSigned : t.has VAL_SIGNED = ((flags &&& VAL_SIGNED) != 0) := by
    simp [RTTIType.has, htf]
  obtain ⟨a, ha3, hfa⟩ : ∃ a : Nat, a < 3 ∧ 2 ^ a = (flags >>> VAL_ALIGN_OFFSET) &&& 31 := by
    rcases halign with h | h | h
    · exact ⟨0, by omega, by rw [h]; rfl⟩
    · exact ⟨1, by omega, by rw [h]; rfl⟩
    · exact ⟨2, by omega, by rw [h]; rfl⟩
  have hva : t.value_align = (a : Int) := by
    rw [value_align_formula, htf, ← hfa]
    interval_cases a <;> decide
  have hshl : pyShlNat xs.length t.value_align = .ok (xs.length <<< a) := by
    rw [hva]
    simp [pyShlNat]
  obtain ⟨k, hk0, hkw, hks⟩ := view_class_spec a ha3 ((flags &&& VAL_SIGNED) != 0)
  have hk : get_array_view_class (t.has VAL_FLOAT) t.value_align (t.has VAL_SIGNED) = .ok k := by
    rw [hFloat, hva, hSigned]
    exact hk0
  have hrange2 : ∀ v ∈ xs, scalarInRange k.signed k.width v := by
    intro v hv
    rw [hks, hkw, hfa]
    exact hrange v hv
  unfold alloc_array
  rw [hload]
  simp only [hABV, Bool.not_true, Bool.false_eq_true, if_false, hshl, hk, hMan,
    guestAlloc, guestRetain]
  have htn : t.value_align.toNat = a := by rw [hva]; rfl
  simp only [htn]
  refine ⟨_, _, rfl, rfl, ?_⟩
  intro i hi
  have hnot : ¬ ((xs.length : Int) ≤ (i : Int)) := by
    exact_mod_cast Nat.not_le.mpr hi
  simp only [ASArray.getitem, validate_index, if_neg hnot, Bool.false_eq_true, if_false]
  have hti : ((i : Int)).toNat = i := rfl
  rw [hti]
  have h16 : (16 : Nat) ∣ ((s.heapNext + 15) / 16 * 16 + 16) := by omega
  have hdvd : 2 ^ a ∣ ((s.heapNext + 15) / 16 * 16 + 16) := by
    refine dvd_trans ?_ h16
    have h24 : (16 : Nat) = 2 ^ 4 := by norm_num
    rw [h24]
    exact pow_dvd_pow 2 (by omega)
  have hkwl : k.width * xs.length = xs.length <<< a := by
    rw [hkw, Nat.shiftLeft_eq]
    ring
  have hc : (s.heapNext + 15) / 16 * 16 + 16 + k.width * xs.length ≤
      ((s.heapNext + 15) / 16 * 16 + 16 + xs.length <<< a + 15) / 16 * 16 + 16 - 12 := by
    rw [hkwl]
    omega
  rw [elemRead_final _ k _ xs _ _ a i hi hdvd hkw hrange2 hc]

/-- C4 witness: in `sC4` (an unsigned-byte general-array type with id 3)
allocating [1, 2, 250] succeeds, has length 3 and reads back exactly. -/
theorem C4_witness :
    ∃ arr s2, alloc_array sC4 3 [1, 2, 250] = .ok (arr, s2) ∧
      arr._length = ([1, 2, 250] : List Int).length ∧
      ∀ i (hi : i < ([1, 2, 250] : List Int).length),
        arr.getitem s2 (.int (i : Int)) =
          .ok (.raw (.one (([1, 2, 250] : List Int).get ⟨i, hi⟩))) :=
  C4_roundtrip sC4 32 3 66 [1, 2, 250] rfl (by decide) (by decide) (by decide)
    (by decide) (by decide) (Or.inl (by decide)) (by decide)

end Wasmbind
